import Mathlib

/-!
Verification development for the animation state machine and playhead engine
of `bevy_vello` (`src/animation_controller.rs`).

Embedding conventions:
* `f32` values are embedded as exact rationals (`ℚ`); Rust's `%` on floats
  (truncation-based remainder) is embedded as `fmod` below.
* `Ulps::prev` (one representable step below a float) is embedded as
  subtraction of a positive parameter `eps` that every function depending on
  it takes explicitly.
* Bevy ECS plumbing is embedded per entity: every system is a function from
  the entity's components (the `LottiePlayer`, the active `PlaybackSettings`
  component, the `Handle<VelloAsset>` id) and the asset store to the updated
  components / store.  A Rust `panic!` or `.unwrap()` failure is embedded as
  `Option.none`.
* `Instant` timestamps are embedded as rationals supplied by the caller
  (`now`); `elapsed` is `now - t`.
* `HashMap<&'static str, AnimationState>` is embedded as an association list
  with unique keys; iteration of `values_mut` is a map over all entries.
-/

namespace Vello

set_option maxRecDepth 16000

/-- Playback direction (`AnimationDirection` in the source). -/
inductive AnimationDirection where
  | Normal
  | Reverse
deriving DecidableEq

/-- Loop behavior (`AnimationLoopBehavior` in the source). -/
inductive AnimationLoopBehavior where
  | None
  | Amount (loops : ℚ)
  | Loop
deriving DecidableEq

/-- Modelled from the spec: `play_mode` is an opaque enum (e.g. Normal /
PingPong) carried through unchanged; its declaration (`playback_settings.rs`)
is not among the provided sources. -/
inductive AnimationPlayMode where
  | Normal
  | PingPong
deriving DecidableEq

/-- A half-open range of frames, embedding Rust's `Range<f32>`
(`start..end`); the field `end` is a Lean keyword, so it is named `stop`. -/
structure FRange where
  start : ℚ
  stop : ℚ
deriving DecidableEq

/-- Modelled from the spec: `PlaybackSettings` (its declaration in
`playback_settings.rs` is not among the provided sources); fields are the
ones the spec's data-model table lists plus `autoplay` (read by
`advance_playheads`), with the types used by `animation_controller.rs`. -/
structure PlaybackSettings where
  direction : AnimationDirection
  speed : ℚ
  looping : AnimationLoopBehavior
  play_mode : AnimationPlayMode
  segments : FRange
  intermission : ℚ
  autoplay : Bool
deriving DecidableEq

/-- Modelled from the spec: the fixed default used by
`unwrap_or_default()`; the spec fixes only that a default exists and that
the default direction is `Normal` (`set_state` falls back to
`AnimationDirection::Normal`).  The remaining field values are an arbitrary
fixed choice; no theorem depends on them beyond being fixed. -/
def PlaybackSettings.default : PlaybackSettings :=
  { direction := AnimationDirection.Normal
    speed := 1
    looping := AnimationLoopBehavior.Loop
    play_mode := AnimationPlayMode.Normal
    segments := { start := -1000000, stop := 1000000 }
    intermission := 0
    autoplay := true }

/-- The timeline data of a decoded Lottie composition (frame range and frame
rate are all `animation_controller.rs` reads). -/
structure Composition where
  frames : FRange
  frame_rate : ℚ
deriving DecidableEq

/-- Truncation toward zero of a rational, embedding the rounding of Rust's
float remainder operator. -/
def rtrunc (q : ℚ) : ℤ :=
  if 0 ≤ q then ⌊q⌋ else ⌈q⌉

/-- The Rust `%` operator on floats: `x - trunc (x / y) * y`. -/
def fmod (x y : ℚ) : ℚ :=
  x - (rtrunc (x / y) : ℚ) * y

/-- `calculate_playhead` from the source, with `Ulps::prev end_frame`
embedded as `end_frame - eps`. -/
def calculate_playhead (eps : ℚ) (rendered_frames : ℚ) (composition : Composition)
    (playback_settings : PlaybackSettings) : ℚ :=
  let start_frame := max playback_settings.segments.start composition.frames.start
  let end_frame := min playback_settings.segments.stop composition.frames.stop
  let length := end_frame - start_frame + playback_settings.intermission
  let frame :=
    match playback_settings.looping with
    | AnimationLoopBehavior.None => min rendered_frames length
    | AnimationLoopBehavior.Amount loops => fmod (min rendered_frames (loops * length)) length
    | AnimationLoopBehavior.Loop => fmod rendered_frames length
  match playback_settings.direction with
  | AnimationDirection.Normal => min (start_frame + frame) (end_frame - eps)
  | AnimationDirection.Reverse => min (end_frame - frame) (end_frame - eps)

/-- Transition rules (`AnimationTransition` in the source). -/
inductive AnimationTransition where
  | OnAfter (state : String) (secs : ℚ)
  | OnComplete (state : String)
  | OnMouseEnter (state : String)
  | OnMouseClick (state : String)
  | OnMouseLeave (state : String)
  | OnShow (state : String)
deriving DecidableEq

/-- `AnimationState` from the source; `asset` is the handle id of the
referenced `VelloAsset` (`Handle<VelloAsset>` embedded as its id). -/
structure AnimationState where
  id : String
  asset : ℕ
  playback_settings : Option PlaybackSettings
  transitions : List AnimationTransition
  reset_playhead_on_transition : Bool
  reset_playhead_on_start : Bool
deriving DecidableEq

/-- `LottiePlayer` from the source; the `HashMap` of states is embedded as
an association list with unique keys. -/
structure LottiePlayer where
  initial_state : String
  current_state : String
  next_state : Option String
  states : List (String × AnimationState)
  pending_seek_frame : Option ℚ
  pending_direction : Option AnimationDirection
  pending_intermission : Option ℚ
  pending_loop_behavior : Option AnimationLoopBehavior
  pending_play_mode : Option AnimationPlayMode
  pending_speed : Option ℚ
  started : Bool
  playing : Bool
  stopped : Bool
deriving DecidableEq

/-- `LottiePlayer::play`. -/
def LottiePlayer.play (p : LottiePlayer) : LottiePlayer :=
  { p with playing := true, stopped := false }

/-- `LottiePlayer::pause`. -/
def LottiePlayer.pause (p : LottiePlayer) : LottiePlayer :=
  { p with playing := false }

/-- `LottiePlayer::stop`. -/
def LottiePlayer.stop (p : LottiePlayer) : LottiePlayer :=
  { p with stopped := true }

/-- `LottiePlayer::toggle_play`. -/
def LottiePlayer.toggle_play (p : LottiePlayer) : LottiePlayer :=
  if p.stopped || !p.playing then p.play else p.pause

/-- `LottiePlayer::transition`. -/
def LottiePlayer.transition (p : LottiePlayer) (state : String) : LottiePlayer :=
  { p with next_state := some state }

/-- `LottiePlayer::seek`. -/
def LottiePlayer.seek (p : LottiePlayer) (frame : ℚ) : LottiePlayer :=
  { p with pending_seek_frame := some frame }

/-- `LottiePlayer::set_direction`. -/
def LottiePlayer.set_direction (p : LottiePlayer) (d : AnimationDirection) : LottiePlayer :=
  { p with pending_direction := some d }

/-- `LottiePlayer::set_intermission`. -/
def LottiePlayer.set_intermission (p : LottiePlayer) (i : ℚ) : LottiePlayer :=
  { p with pending_intermission := some i }

/-- `LottiePlayer::set_loop_behavior`. -/
def LottiePlayer.set_loop_behavior (p : LottiePlayer) (lb : AnimationLoopBehavior) : LottiePlayer :=
  { p with pending_loop_behavior := some lb }

/-- `LottiePlayer::set_play_mode`. -/
def LottiePlayer.set_play_mode (p : LottiePlayer) (m : AnimationPlayMode) : LottiePlayer :=
  { p with pending_play_mode := some m }

/-- `LottiePlayer::set_speed`. -/
def LottiePlayer.set_speed (p : LottiePlayer) (s : ℚ) : LottiePlayer :=
  { p with pending_speed := some s }

/-- The `Vector` data of a `VelloAsset`: an SVG (whose `first_frame` is an
`Instant`, embedded as a rational timestamp) or a Lottie with its
composition, `first_frame` timestamp and `rendered_frames` accumulator. -/
inductive VectorData where
  | Svg (first_frame : Option ℚ)
  | Lottie (composition : Composition) (first_frame : Option ℚ) (rendered_frames : ℚ)
deriving DecidableEq

/-- The `Assets<VelloAsset>` store, embedded as an association list from
handle id to the asset's vector data. -/
abbrev Assets : Type := List (ℕ × VectorData)

/-- `assets.get(id)` / `assets.get_mut(id)` (the lookup part). -/
def getAsset (assets : Assets) (h : ℕ) : Option VectorData :=
  List.lookup h assets

/-- Writing back through `assets.get_mut(id)`: replace the entry with id
`h`. -/
def setAsset (assets : Assets) (h : ℕ) (v : VectorData) : Assets :=
  List.map (fun kv => if kv.1 = h then (h, v) else kv) assets

/-- One animated entity as the systems see it: its `LottiePlayer`, its
active `PlaybackSettings` component, and its `Handle<VelloAsset>` id. -/
structure Entity where
  player : LottiePlayer
  ps : PlaybackSettings
  cur_handle : ℕ
deriving DecidableEq

/-- The mutable data `apply_player_inputs` threads through its pending-slot
branches: the player's state table, the active settings component and the
Lottie's `rendered_frames`. -/
structure ApplyCtx where
  states : List (String × AnimationState)
  ps : PlaybackSettings
  rendered : ℚ
deriving DecidableEq

/-- The fan-out loop
`player.states.values_mut().flat_map(|s| s.playback_settings.as_mut())`:
apply `f` to every state's existing settings override. -/
def fanoutStates (f : PlaybackSettings → PlaybackSettings)
    (states : List (String × AnimationState)) : List (String × AnimationState) :=
  List.map (fun kv => (kv.1, { kv.2 with playback_settings := Option.map f kv.2.playback_settings })) states

/-- The fan-out `... .chain([playback_settings.as_mut()])`: apply `f` to
every state's existing override and to the active settings. -/
def applyFan (f : PlaybackSettings → PlaybackSettings) (c : ApplyCtx) : ApplyCtx :=
  { c with states := fanoutStates f c.states, ps := f c.ps }

/-- The `pending_direction` branch of `apply_player_inputs`. -/
def stepDirection (pd : Option AnimationDirection) (c : ApplyCtx) : ApplyCtx :=
  match pd with
  | none => c
  | some d => applyFan (fun s => { s with direction := d }) c

/-- The `pending_intermission` branch of `apply_player_inputs` (note the
source's `(*rendered_frames + dt_frames).min(0.0)`). -/
def stepIntermission (pi : Option ℚ) (composition : Composition) (c : ApplyCtx) : ApplyCtx :=
  match pi with
  | none => c
  | some i =>
    let loops_played := c.rendered /
      (composition.frames.stop - composition.frames.start + c.ps.intermission)
    let dt_intermission := i - c.ps.intermission
    let dt_frames := dt_intermission * loops_played
    applyFan (fun s => { s with intermission := i })
      { c with rendered := min (c.rendered + dt_frames) 0 }

/-- The `pending_loop_behavior` branch of `apply_player_inputs`. -/
def stepLoopBehavior (pl : Option AnimationLoopBehavior) (c : ApplyCtx) : ApplyCtx :=
  match pl with
  | none => c
  | some lb => applyFan (fun s => { s with looping := lb }) c

/-- The `pending_play_mode` branch of `apply_player_inputs`. -/
def stepPlayMode (pm : Option AnimationPlayMode) (c : ApplyCtx) : ApplyCtx :=
  match pm with
  | none => c
  | some m => applyFan (fun s => { s with play_mode := m }) c

/-- The `pending_seek_frame` branch of `apply_player_inputs`. -/
def stepSeek (psk : Option ℚ) (composition : Composition) (c : ApplyCtx) : ApplyCtx :=
  match psk with
  | none => c
  | some seek_frame =>
    let local_frame := fmod c.rendered
      (composition.frames.stop - composition.frames.start + c.ps.intermission)
    let local_seek_frame := fmod seek_frame
      (composition.frames.stop - composition.frames.start)
    { c with rendered := c.rendered - local_frame + local_seek_frame }

/-- The `pending_speed` branch of `apply_player_inputs`. -/
def stepSpeed (psp : Option ℚ) (c : ApplyCtx) : ApplyCtx :=
  match psp with
  | none => c
  | some sp => applyFan (fun s => { s with speed := sp }) c

/-- `systems::apply_player_inputs`, for one entity.  The asset lookup
`unwrap()` is `none` on failure; a non-Lottie asset makes the body skip the
entity (`let ... else continue`).  The branches run in source order:
direction, intermission, loop behavior, play mode, seek, speed.  Note that
the source never clears the `pending_*` slots. -/
def apply_player_inputs (assets : Assets) (e : Entity) : Option (Assets × Entity) :=
  match getAsset assets e.cur_handle with
  | none => none
  | some (VectorData.Svg _) => some (assets, e)
  | some (VectorData.Lottie composition first_frame rendered_frames) =>
    let c0 : ApplyCtx := { states := e.player.states, ps := e.ps, rendered := rendered_frames }
    let c :=
      stepSpeed e.player.pending_speed
        (stepSeek e.player.pending_seek_frame composition
          (stepPlayMode e.player.pending_play_mode
            (stepLoopBehavior e.player.pending_loop_behavior
              (stepIntermission e.player.pending_intermission composition
                (stepDirection e.player.pending_direction c0)))))
    some (setAsset assets e.cur_handle (VectorData.Lottie composition first_frame c.rendered),
      { e with player := { e.player with states := c.states }, ps := c.ps })

/-- `systems::advance_playheads`, for one entity; `dt` is
`time.delta_seconds()` and `now` the current `Instant`. -/
def advance_playheads (dt now : ℚ) (assets : Assets) (e : Entity) : Option (Assets × Entity) :=
  if e.player.stopped then some (assets, e)
  else
    let player1 :=
      if e.ps.autoplay && !e.player.started then { e.player with playing := true } else e.player
    if !player1.playing then some (assets, { e with player := player1 })
    else
      match getAsset assets e.cur_handle with
      | none => none
      | some (VectorData.Svg _) => some (assets, { e with player := player1 })
      | some (VectorData.Lottie composition first_frame rendered_frames) =>
        let player2 :=
          if first_frame.isNone then { player1 with started := true } else player1
        let first_frame2 := if first_frame.isNone then some now else first_frame
        let elapsed_frames := dt * e.ps.speed * composition.frame_rate
        some (setAsset assets e.cur_handle
            (VectorData.Lottie composition first_frame2 (rendered_frames + elapsed_frames)),
          { e with player := player2 })

/-- The `first_frame` field of either variant of the asset data. -/
def firstFrameOf : VectorData → Option ℚ
  | VectorData.Svg ff => ff
  | VectorData.Lottie _ ff _ => ff

/-- The transition scan loop of `systems::run_transitions`: walk the current
state's rules in order, returning the first fired target (and the updated
`hovered` latch).  `is_inside` is the precomputed pointer hit test,
`just_pressed` the left-button edge. -/
def scanTransitions (asset : VectorData) (ps : PlaybackSettings) (is_inside just_pressed : Bool)
    (now : ℚ) (hovered : Bool) :
    List AnimationTransition → Option String × Bool
  | [] => (none, hovered)
  | AnimationTransition.OnAfter s secs :: rest =>
    (match firstFrameOf asset with
     | some t =>
       if now - t > secs then (some s, hovered)
       else scanTransitions asset ps is_inside just_pressed now hovered rest
     | none => scanTransitions asset ps is_inside just_pressed now hovered rest)
  | AnimationTransition.OnComplete s :: rest =>
    (match asset with
     | VectorData.Svg _ => scanTransitions asset ps is_inside just_pressed now hovered rest
     | VectorData.Lottie composition _ rendered_frames =>
       if rendered_frames ≥
           composition.frames.stop - composition.frames.start + ps.intermission then
         (some s, hovered)
       else scanTransitions asset ps is_inside just_pressed now hovered rest)
  | AnimationTransition.OnMouseEnter s :: rest =>
    if is_inside then (some s, hovered)
    else scanTransitions asset ps is_inside just_pressed now hovered rest
  | AnimationTransition.OnMouseClick s :: rest =>
    if is_inside && just_pressed then (some s, hovered)
    else scanTransitions asset ps is_inside just_pressed now hovered rest
  | AnimationTransition.OnMouseLeave s :: rest =>
    if hovered && !is_inside then (some s, false)
    else
      if is_inside then scanTransitions asset ps is_inside just_pressed now true rest
      else scanTransitions asset ps is_inside just_pressed now hovered rest
  | AnimationTransition.OnShow s :: rest =>
    if (firstFrameOf asset).isSome then (some s, hovered)
    else scanTransitions asset ps is_inside just_pressed now hovered rest

/-- `systems::run_transitions`, for one entity.  The asset lookup and the
`controller.state()` lookup panic (`none`) when missing; a fired rule
replaces `next_state`. -/
def run_transitions (is_inside just_pressed : Bool) (now : ℚ) (assets : Assets) (e : Entity)
    (hovered : Bool) : Option (Entity × Bool) :=
  if e.player.stopped then some (e, hovered)
  else
    match getAsset assets e.cur_handle with
    | none => none
    | some asset =>
      match List.lookup e.player.current_state e.player.states with
      | none => none
      | some st =>
        match scanTransitions asset e.ps is_inside just_pressed now hovered st.transitions with
        | (some s, h2) => some ({ e with player := { e.player with next_state := some s } }, h2)
        | (none, h2) => some (e, h2)

/-- `systems::set_state`, for one entity.  `pbOpt` is the entity's optional
`PlaybackSettings` component as the system's query reads it.  `none` embeds
the source's panics: unregistered target state, unregistered current state
(`controller.state()`), or missing asset. -/
def set_state (eps : ℚ) (assets : Assets) (pbOpt : Option PlaybackSettings) (e : Entity) :
    Option (Assets × Entity) :=
  match e.player.next_state with
  | none => some (assets, e)
  | some next =>
    let player1 := { e.player with next_state := none, started := false, playing := false }
    match List.lookup next player1.states with
    | none => none
    | some target =>
      match List.lookup player1.current_state player1.states with
      | none => none
      | some cur_st =>
        let handle := if cur_st.asset ≠ target.asset then target.asset else e.cur_handle
        match getAsset assets handle with
        | none => none
        | some (VectorData.Svg _) =>
          some (setAsset assets handle (VectorData.Svg none),
            { player := { player1 with current_state := next }
              ps := (target.playback_settings).getD PlaybackSettings.default
              cur_handle := handle })
        | some (VectorData.Lottie composition _ rendered_frames) =>
          let rendered2 :=
            if cur_st.reset_playhead_on_transition || target.reset_playhead_on_start then 0
            else
              let pb := pbOpt.getD PlaybackSettings.default
              let playhead := calculate_playhead eps rendered_frames composition pb
              match pb.direction,
                  (Option.map (fun s => s.direction) target.playback_settings).getD
                    AnimationDirection.Normal with
              | AnimationDirection.Normal, AnimationDirection.Reverse =>
                composition.frames.stop - playhead
              | AnimationDirection.Reverse, AnimationDirection.Normal => playhead
              | _, _ => fmod rendered_frames (composition.frames.stop - composition.frames.start)
          some (setAsset assets handle (VectorData.Lottie composition none rendered2),
            { player := { player1 with current_state := next }
              ps := (target.playback_settings).getD PlaybackSettings.default
              cur_handle := handle })

/-- One full tick of the pipeline for one entity, in the chained system
order `apply_player_inputs → advance_playheads → run_transitions →
set_state`. -/
def tick (eps dt now : ℚ) (is_inside just_pressed : Bool) (assets : Assets) (e : Entity)
    (hovered : Bool) : Option (Assets × Entity × Bool) :=
  match apply_player_inputs assets e with
  | none => none
  | some (a1, e1) =>
    match advance_playheads dt now a1 e1 with
    | none => none
    | some (a2, e2) =>
      match run_transitions is_inside just_pressed now a2 e2 hovered with
      | none => none
      | some (e3, h3) =>
        match set_state eps a2 (some e3.ps) e3 with
        | none => none
        | some (a4, e4) => some (a4, e4, h3)

/-- One commit phase applied to an (assets, entity) pair, feeding the
entity's own active settings component to `set_state` as its optional query
result does. -/
def commitStep (eps : ℚ) (st : Assets × Entity) : Option (Assets × Entity) :=
  set_state eps st.1 (some st.2.ps) st.2

/-- Queue a transition request on the entity (the effect of
`player.transition(s)` between phases). -/
def requeue (s : String) (st : Assets × Entity) : Assets × Entity :=
  (st.1, { st.2 with player := { st.2.player with next_state := some s } })

/-- Commit the pending transition, then immediately (with no time advance)
queue `s` and commit again: the round-trip scenario of the spec. -/
def roundTrip (eps : ℚ) (s : String) (assets : Assets) (e : Entity) :
    Option (Assets × Entity) :=
  Option.bind (commitStep eps (assets, e)) (fun st => commitStep eps (requeue s st))

/-- The frame the renderer would read for the entity: `calculate_playhead`
of the current asset's accumulator under the active settings. -/
def visiblePlayhead (eps : ℚ) (st : Assets × Entity) : Option ℚ :=
  match getAsset st.1 st.2.cur_handle with
  | some (VectorData.Lottie composition _ rendered_frames) =>
    some (calculate_playhead eps rendered_frames composition st.2.ps)
  | _ => none

/-- Boolean check that every existing per-state settings override satisfies
`p`. -/
def overridesAll (p : PlaybackSettings → Bool) (states : List (String × AnimationState)) : Bool :=
  states.all (fun kv => kv.2.playback_settings.all p)

/-- The combined effect of the five settings-writing pending slots on one
settings record, in the order the branches of `apply_player_inputs` run
(direction, intermission, loop behavior, play mode, speed; a pending seek
writes no settings). -/
def pendingFan (p : LottiePlayer) (x : PlaybackSettings) : PlaybackSettings :=
  let x1 := match p.pending_direction with
    | none => x
    | some d => { x with direction := d }
  let x2 := match p.pending_intermission with
    | none => x1
    | some i => { x1 with intermission := i }
  let x3 := match p.pending_loop_behavior with
    | none => x2
    | some lb => { x2 with looping := lb }
  let x4 := match p.pending_play_mode with
    | none => x3
    | some m => { x3 with play_mode := m }
  match p.pending_speed with
  | none => x4
  | some sp => { x4 with speed := sp }

/-- The completion condition as the spec words it for `OnComplete`:
`rendered_frames ≥ usable_length + intermission` with the usable range
clamped by the settings' segments (a second definition following the spec's
words, for comparison with the source's `run_transitions` guard). -/
def specOnCompleteCondition (composition : Composition) (ps : PlaybackSettings)
    (rendered_frames : ℚ) : Prop :=
  rendered_frames ≥
    (min ps.segments.stop composition.frames.stop -
      max ps.segments.start composition.frames.start) + ps.intermission

/-! ### Concrete fixtures used by witnesses and counterexamples -/

/-- A composition with frame range `[0, 100)` and frame rate 30, the spec's
concrete scenario. -/
def comp100 : Composition := { frames := { start := 0, stop := 100 }, frame_rate := 30 }

/-- Baseline settings: Normal direction, speed 1, infinite looping, full
segments, no intermission. -/
def ps0 : PlaybackSettings :=
  { direction := AnimationDirection.Normal
    speed := 1
    looping := AnimationLoopBehavior.Loop
    play_mode := AnimationPlayMode.Normal
    segments := { start := 0, stop := 100 }
    intermission := 0
    autoplay := true }

/-- Baseline settings restricted to segments `[0, 50)`. -/
def psSeg50 : PlaybackSettings := { ps0 with segments := { start := 0, stop := 50 } }

/-- Baseline settings with intermission 10. -/
def psI10 : PlaybackSettings := { ps0 with intermission := 10 }

/-- A state named `a` over asset handle 0 with settings override `ps0` and
no transitions or reset flags. -/
def stateA : AnimationState :=
  { id := "a", asset := 0, playback_settings := some ps0, transitions := []
    reset_playhead_on_transition := false, reset_playhead_on_start := false }

/-- A state named `b` over asset handle 0 with no settings override. -/
def stateB : AnimationState :=
  { id := "b", asset := 0, playback_settings := none, transitions := []
    reset_playhead_on_transition := false, reset_playhead_on_start := false }

/-- A state named `a` whose only transition is `OnShow` to the unregistered
id `ghost`. -/
def stateGhost : AnimationState :=
  { id := "a", asset := 0, playback_settings := some ps0
    transitions := [AnimationTransition.OnShow "ghost"]
    reset_playhead_on_transition := false, reset_playhead_on_start := false }

/-- A running player in state `a` with states `a` and `b` and no pending
commands. -/
def playerAB : LottiePlayer :=
  { initial_state := "a", current_state := "a", next_state := none
    states := [("a", stateA), ("b", stateB)]
    pending_seek_frame := none, pending_direction := none, pending_intermission := none
    pending_loop_behavior := none, pending_play_mode := none, pending_speed := none
    started := true, playing := true, stopped := false }

/-- Asset store holding a single Lottie over `comp100` under handle 0 with
`first_frame` already set and accumulator `r`. -/
def assetsL (r : ℚ) : Assets := [(0, VectorData.Lottie comp100 (some 0) r)]

/-- Asset store holding a single Lottie over `comp100` under handle 0 with
no `first_frame` yet and accumulator `r`. -/
def assetsL0 (r : ℚ) : Assets := [(0, VectorData.Lottie comp100 none r)]

/-- Entity for the C1 scenario: all six pending command slots are set. -/
def entityC1 : Entity :=
  { player := { playerAB with
      pending_seek_frame := some 30
      pending_direction := some AnimationDirection.Reverse
      pending_intermission := some 10
      pending_loop_behavior := some AnimationLoopBehavior.None
      pending_play_mode := some AnimationPlayMode.PingPong
      pending_speed := some 2 }
    ps := ps0
    cur_handle := 0 }

/-- Entity for the C2 failing input: active intermission 0, pending
intermission 10. -/
def entityC2 : Entity :=
  { player := { playerAB with pending_intermission := some 10 }
    ps := ps0
    cur_handle := 0 }

/-- Entity for the C3 counterexample: stopped, with a pending `next_state`
request to `b`. -/
def entityC3 : Entity :=
  { player := { playerAB with stopped := true, next_state := some "b" }
    ps := ps0
    cur_handle := 0 }

/-- Entity for the C4 counterexample: running in a state whose only
transition targets the unregistered id `ghost`. -/
def entityC4 : Entity :=
  { player := { playerAB with states := [("a", stateGhost)] }
    ps := ps0
    cur_handle := 0 }

/-- Entity for the C5 scenario: a pending `set_speed(2)` command. -/
def entityC5 : Entity :=
  { player := { playerAB with pending_speed := some 2 }
    ps := ps0
    cur_handle := 0 }

/-- Settings of the round-trip scenario: Normal direction, infinite loop,
segments exactly `[0, E)`, intermission `i`. -/
def psRT (E i : ℚ) : PlaybackSettings :=
  { direction := AnimationDirection.Normal
    speed := 1
    looping := AnimationLoopBehavior.Loop
    play_mode := AnimationPlayMode.Normal
    segments := { start := 0, stop := E }
    intermission := i
    autoplay := true }

/-- Round-trip state `a`: Normal-direction override, no reset flags. -/
def stateRTA (E i : ℚ) : AnimationState :=
  { id := "a", asset := 0, playback_settings := some (psRT E i), transitions := []
    reset_playhead_on_transition := false, reset_playhead_on_start := false }

/-- Round-trip state `b`: the same override with direction Reverse, no
reset flags. -/
def stateRTB (E i : ℚ) : AnimationState :=
  { id := "b", asset := 0
    playback_settings := some { psRT E i with direction := AnimationDirection.Reverse }
    transitions := []
    reset_playhead_on_transition := false, reset_playhead_on_start := false }

/-- Round-trip player: in state `a`, commit to `b` pending. -/
def playerRT (E i : ℚ) : LottiePlayer :=
  { initial_state := "a", current_state := "a", next_state := some "b"
    states := [("a", stateRTA E i), ("b", stateRTB E i)]
    pending_seek_frame := none, pending_direction := none, pending_intermission := none
    pending_loop_behavior := none, pending_play_mode := none, pending_speed := none
    started := true, playing := true, stopped := false }

/-- Round-trip entity with active settings `psRT E i`. -/
def entityRT (E i : ℚ) : Entity :=
  { player := playerRT E i, ps := psRT E i, cur_handle := 0 }

/-- Round-trip asset store: one Lottie over `[0, E)` with accumulator `r`. -/
def assetsRT (E fr r : ℚ) : Assets :=
  [(0, VectorData.Lottie { frames := { start := 0, stop := E }, frame_rate := fr } none r)]

/-- The round-trip player after a commit: in state `cur` with request
`nxt`, flags cleared by the commit. -/
def playerRTafter (E i : ℚ) (cur : String) (nxt : Option String) : LottiePlayer :=
  { initial_state := "a", current_state := cur, next_state := nxt,
    states := [("a", stateRTA E i), ("b", stateRTB E i)],
    pending_seek_frame := none, pending_direction := none, pending_intermission := none,
    pending_loop_behavior := none, pending_play_mode := none, pending_speed := none,
    started := false, playing := false, stopped := false }

/-- The round-trip entity after a commit, with active settings `ps`. -/
def entityRTafter (E i : ℚ) (cur : String) (nxt : Option String) (ps : PlaybackSettings) :
    Entity :=
  { player := playerRTafter E i cur nxt, ps := ps, cur_handle := 0 }

/-- A stopped player that was previously paused (`playing = false`). -/
def playerStopped : LottiePlayer := { playerAB with stopped := true, playing := false }

/-! ### Arithmetic lemmas about the float remainder embedding -/

theorem rtrunc_of_nonneg {q : ℚ} (h : 0 ≤ q) : rtrunc q = ⌊q⌋ := by
  simp [rtrunc, h]

theorem fmod_of_nonneg {x y : ℚ} (hx : 0 ≤ x) (hy : 0 < y) :
    fmod x y = x - (⌊x / y⌋ : ℚ) * y := by
  rw [fmod, rtrunc_of_nonneg (div_nonneg hx hy.le)]

theorem fmod_eq_fract_mul {x y : ℚ} (hx : 0 ≤ x) (hy : 0 < y) :
    fmod x y = y * Int.fract (x / y) := by
  rw [fmod_of_nonneg hx hy, Int.fract]
  field_simp
  ring

theorem fmod_nonneg {x y : ℚ} (hx : 0 ≤ x) (hy : 0 < y) : 0 ≤ fmod x y := by
  rw [fmod_eq_fract_mul hx hy]
  exact mul_nonneg hy.le (Int.fract_nonneg _)

theorem fmod_lt {x y : ℚ} (hx : 0 ≤ x) (hy : 0 < y) : fmod x y < y := by
  rw [fmod_eq_fract_mul hx hy]
  calc y * Int.fract (x / y) < y * 1 :=
        mul_lt_mul_of_pos_left (Int.fract_lt_one _) hy
    _ = y := mul_one y

theorem fmod_eq_self {x y : ℚ} (hx : 0 ≤ x) (hxy : x < y) : fmod x y = x := by
  have hy : 0 < y := lt_of_le_of_lt hx hxy
  rw [fmod_of_nonneg hx hy]
  have hfl : ⌊x / y⌋ = 0 := by
    rw [Int.floor_eq_zero_iff]
    constructor
    · exact div_nonneg hx hy.le
    · rw [div_lt_one hy]
      exact hxy
  rw [hfl]
  push_cast
  ring

theorem fmod_add_nat_mul {x y : ℚ} (k : ℕ) (hx : 0 ≤ x) (hy : 0 < y) :
    fmod (x + k * y) y = fmod x y := by
  have hx2 : 0 ≤ x + k * y :=
    add_nonneg hx (mul_nonneg (by positivity) hy.le)
  rw [fmod_of_nonneg hx hy, fmod_of_nonneg hx2 hy]
  have hdiv : (x + k * y) / y = x / y + (k : ℚ) := by
    rw [add_div, mul_div_assoc, div_self hy.ne.symm, mul_one]
  rw [hdiv, Int.floor_add_nat]
  push_cast
  ring

/-! ### Structural lemmas about the command fan-out and the asset store -/

theorem fanoutStates_comp (f g : PlaybackSettings → PlaybackSettings)
    (l : List (String × AnimationState)) :
    fanoutStates f (fanoutStates g l) = fanoutStates (fun x => f (g x)) l := by
  induction l with
  | nil => rfl
  | cons kv rest ih =>
    simp only [fanoutStates, List.map_cons, List.map] at ih ⊢
    rw [Option.map_map]
    exact congrArg _ ih

theorem stepDirection_states (o : Option AnimationDirection) (c : ApplyCtx) :
    (stepDirection o c).states =
      (match o with
       | none => c.states
       | some d => fanoutStates (fun s => { s with direction := d }) c.states) := by
  cases o <;> rfl

theorem stepDirection_ps (o : Option AnimationDirection) (c : ApplyCtx) :
    (stepDirection o c).ps =
      (match o with
       | none => c.ps
       | some d => { c.ps with direction := d }) := by
  cases o <;> rfl

theorem stepIntermission_states (o : Option ℚ) (composition : Composition) (c : ApplyCtx) :
    (stepIntermission o composition c).states =
      (match o with
       | none => c.states
       | some i => fanoutStates (fun s => { s with intermission := i }) c.states) := by
  cases o <;> rfl

theorem stepIntermission_ps (o : Option ℚ) (composition : Composition) (c : ApplyCtx) :
    (stepIntermission o composition c).ps =
      (match o with
       | none => c.ps
       | some i => { c.ps with intermission := i }) := by
  cases o <;> rfl

theorem stepLoopBehavior_states (o : Option AnimationLoopBehavior) (c : ApplyCtx) :
    (stepLoopBehavior o c).states =
      (match o with
       | none => c.states
       | some lb => fanoutStates (fun s => { s with looping := lb }) c.states) := by
  cases o <;> rfl

theorem stepLoopBehavior_ps (o : Option AnimationLoopBehavior) (c : ApplyCtx) :
    (stepLoopBehavior o c).ps =
      (match o with
       | none => c.ps
       | some lb => { c.ps with looping := lb }) := by
  cases o <;> rfl

theorem stepPlayMode_states (o : Option AnimationPlayMode) (c : ApplyCtx) :
    (stepPlayMode o c).states =
      (match o with
       | none => c.states
       | some m => fanoutStates (fun s => { s with play_mode := m }) c.states) := by
  cases o <;> rfl

theorem stepPlayMode_ps (o : Option AnimationPlayMode) (c : ApplyCtx) :
    (stepPlayMode o c).ps =
      (match o with
       | none => c.ps
       | some m => { c.ps with play_mode := m }) := by
  cases o <;> rfl

theorem stepSeek_states (o : Option ℚ) (composition : Composition) (c : ApplyCtx) :
    (stepSeek o composition c).states = c.states := by
  cases o <;> rfl

theorem stepSeek_ps (o : Option ℚ) (composition : Composition) (c : ApplyCtx) :
    (stepSeek o composition c).ps = c.ps := by
  cases o <;> rfl

theorem stepSpeed_states (o : Option ℚ) (c : ApplyCtx) :
    (stepSpeed o c).states =
      (match o with
       | none => c.states
       | some sp => fanoutStates (fun s => { s with speed := sp }) c.states) := by
  cases o <;> rfl

theorem stepSpeed_ps (o : Option ℚ) (c : ApplyCtx) :
    (stepSpeed o c).ps =
      (match o with
       | none => c.ps
       | some sp => { c.ps with speed := sp }) := by
  cases o <;> rfl

theorem fanoutStates_id (l : List (String × AnimationState)) :
    fanoutStates (fun x => x) l = l := by
  induction l with
  | nil => rfl
  | cons kv rest ih => simp_all [fanoutStates, Option.map_id]

theorem lookup_fanoutStates (f : PlaybackSettings → PlaybackSettings) (k : String)
    (l : List (String × AnimationState)) :
    List.lookup k (fanoutStates f l) =
      Option.map (fun st => { st with playback_settings := Option.map f st.playback_settings })
        (List.lookup k l) := by
  induction l with
  | nil => rfl
  | cons kv rest ih =>
    simp only [fanoutStates, List.map] at ih ⊢
    by_cases h : k == kv.1
    · simp [List.lookup, h]
    · simp [List.lookup, h, ih]

theorem getAsset_setAsset_self (assets : Assets) (h : ℕ) (v : VectorData)
    (hsome : (getAsset assets h).isSome) :
    getAsset (setAsset assets h v) h = some v := by
  induction assets with
  | nil => simp [getAsset, List.lookup] at hsome
  | cons kv rest ih =>
    obtain ⟨k1, v1⟩ := kv
    rw [show setAsset ((k1, v1) :: rest) h v =
        (if k1 = h then (h, v) else (k1, v1)) :: setAsset rest h v from rfl]
    by_cases hk : k1 = h
    · rw [if_pos hk]
      simp [getAsset, List.lookup]
    · rw [if_neg hk]
      have hk2 : (h == k1) = false := beq_eq_false_iff_ne.mpr (Ne.symm hk)
      simp only [getAsset, List.lookup, hk2] at hsome ⊢
      exact ih hsome

theorem overridesAll_fanoutStates (q : PlaybackSettings → Bool)
    (F : PlaybackSettings → PlaybackSettings) (l : List (String × AnimationState))
    (hq : ∀ x, q (F x) = true) :
    overridesAll q (fanoutStates F l) = true := by
  induction l with
  | nil => rfl
  | cons kv rest ih =>
    simp only [overridesAll, fanoutStates, List.map, List.all_cons, Bool.and_eq_true] at ih ⊢
    refine ⟨?_, ih⟩
    cases kv.2.playback_settings <;> simp [Option.all, hq]

theorem pendingFan_direction (p : LottiePlayer) (x : PlaybackSettings) (d : AnimationDirection)
    (h : p.pending_direction = some d) : (pendingFan p x).direction = d := by
  unfold pendingFan
  rw [h]
  cases p.pending_intermission <;> cases p.pending_loop_behavior <;>
    cases p.pending_play_mode <;> cases p.pending_speed <;> rfl

theorem pendingFan_intermission (p : LottiePlayer) (x : PlaybackSettings) (i : ℚ)
    (h : p.pending_intermission = some i) : (pendingFan p x).intermission = i := by
  unfold pendingFan
  rw [h]
  cases p.pending_direction <;> cases p.pending_loop_behavior <;>
    cases p.pending_play_mode <;> cases p.pending_speed <;> rfl

theorem pendingFan_looping (p : LottiePlayer) (x : PlaybackSettings) (lb : AnimationLoopBehavior)
    (h : p.pending_loop_behavior = some lb) : (pendingFan p x).looping = lb := by
  unfold pendingFan
  rw [h]
  cases p.pending_direction <;> cases p.pending_intermission <;>
    cases p.pending_play_mode <;> cases p.pending_speed <;> rfl

theorem pendingFan_play_mode (p : LottiePlayer) (x : PlaybackSettings) (m : AnimationPlayMode)
    (h : p.pending_play_mode = some m) : (pendingFan p x).play_mode = m := by
  unfold pendingFan
  rw [h]
  cases p.pending_direction <;> cases p.pending_intermission <;>
    cases p.pending_loop_behavior <;> cases p.pending_speed <;> rfl

theorem pendingFan_speed (p : LottiePlayer) (x : PlaybackSettings) (sp : ℚ)
    (h : p.pending_speed = some sp) : (pendingFan p x).speed = sp := by
  unfold pendingFan
  rw [h]

/-- Structure of a successful `apply_player_inputs` on a Lottie asset: some
new accumulator value is written back to the asset, the state table gets
`pendingFan` mapped over every existing override, the active settings get
`pendingFan`, and the player is otherwise unchanged (in particular no
pending slot is cleared). -/
theorem apply_player_inputs_shape (assets : Assets) (e : Entity) (composition : Composition)
    (ff : Option ℚ) (r : ℚ)
    (hasset : getAsset assets e.cur_handle = some (VectorData.Lottie composition ff r)) :
    ∃ r2 : ℚ,
      apply_player_inputs assets e =
        some (setAsset assets e.cur_handle (VectorData.Lottie composition ff r2),
          { e with
            player := { e.player with
              states := fanoutStates (fun x => pendingFan e.player x) e.player.states }
            ps := pendingFan e.player e.ps }) := by
  have hstates :
      (stepSpeed e.player.pending_speed
        (stepSeek e.player.pending_seek_frame composition
          (stepPlayMode e.player.pending_play_mode
            (stepLoopBehavior e.player.pending_loop_behavior
              (stepIntermission e.player.pending_intermission composition
                (stepDirection e.player.pending_direction
                  { states := e.player.states, ps := e.ps, rendered := r })))))).states =
        fanoutStates (fun x => pendingFan e.player x) e.player.states := by
    rw [stepSpeed_states, stepSeek_states]
    cases hd : e.player.pending_direction <;>
      cases hi : e.player.pending_intermission <;>
      cases hl : e.player.pending_loop_behavior <;>
      cases hm : e.player.pending_play_mode <;>
      cases hsp : e.player.pending_speed <;>
      simp only [stepPlayMode_states, stepLoopBehavior_states, stepIntermission_states,
        stepDirection_states, pendingFan, hd, hi, hl, hm, hsp, fanoutStates_comp,
        fanoutStates_id]
  have hps :
      (stepSpeed e.player.pending_speed
        (stepSeek e.player.pending_seek_frame composition
          (stepPlayMode e.player.pending_play_mode
            (stepLoopBehavior e.player.pending_loop_behavior
              (stepIntermission e.player.pending_intermission composition
                (stepDirection e.player.pending_direction
                  { states := e.player.states, ps := e.ps, rendered := r })))))).ps =
        pendingFan e.player e.ps := by
    rw [stepSpeed_ps, stepSeek_ps]
    cases hd : e.player.pending_direction <;>
      cases hi : e.player.pending_intermission <;>
      cases hl : e.player.pending_loop_behavior <;>
      cases hm : e.player.pending_play_mode <;>
      cases hsp : e.player.pending_speed <;>
      simp only [stepPlayMode_ps, stepLoopBehavior_ps, stepIntermission_ps,
        stepDirection_ps, pendingFan, hd, hi, hl, hm, hsp]
  exact ⟨_, by simp only [apply_player_inputs, hasset]; rw [hstates, hps]⟩

/-! ### Claim C9 -/

/-- Claim C9: with `looping = Loop` (the source's name for Infinite), the
playhead is periodic in the accumulator with period
`usable_length + intermission`: adding any natural multiple of the period
to a non-negative accumulator leaves `calculate_playhead` unchanged. -/
theorem claim_C9_playhead_periodic (eps rendered : ℚ) (k : ℕ) (composition : Composition)
    (ps : PlaybackSettings) (hloop : ps.looping = AnimationLoopBehavior.Loop)
    (hr : 0 ≤ rendered)
    (hL : 0 < min ps.segments.stop composition.frames.stop -
      max ps.segments.start composition.frames.start + ps.intermission) :
    calculate_playhead eps
        (rendered + k * (min ps.segments.stop composition.frames.stop -
          max ps.segments.start composition.frames.start + ps.intermission))
        composition ps =
      calculate_playhead eps rendered composition ps := by
  simp only [calculate_playhead, hloop]
  rw [fmod_add_nat_mul k hr hL]

/-- Witness for C9 at the spec's concrete scenario: `[0,100)`, intermission
0, Infinite looping; the playhead at accumulator `150 = 50 + 1×100` equals
the playhead at `50` (both are the frame 50). -/
theorem claim_C9_playhead_periodic_witness :
    calculate_playhead (1/2) 150 comp100 ps0 = calculate_playhead (1/2) 50 comp100 ps0 ∧
    calculate_playhead (1/2) 50 comp100 ps0 = 50 := by
  constructor
  · have h := claim_C9_playhead_periodic (1/2) 50 1 comp100 ps0 rfl (by norm_num)
      (by with_unfolding_all decide)
    with_unfolding_all exact h
  · with_unfolding_all decide

/-! ### Claim C6 -/

/-- Counterexample to claim C6: with direction Reverse, frame range
`[0,100)` and intermission 10, at `rendered_frames = 105` (inside the
intermission tail) the playhead is `-5`, strictly below the start of the
usable range (0) — the code does not saturate at the start for Reverse. -/
theorem claim_C6_counterexample :
    calculate_playhead 1 105 comp100 { psI10 with direction := AnimationDirection.Reverse } = -5 ∧
    max ({ psI10 with direction := AnimationDirection.Reverse } :
        PlaybackSettings).segments.start comp100.frames.start = 0 ∧
    (-5 : ℚ) < 0 := by
  refine ⟨?_, ?_, ?_⟩ <;> with_unfolding_all decide

/-- Claim C6 as amended: during the intermission tail of a loop (folded
frame `f` at or past the usable length), with direction Normal the playhead
saturates just below the exclusive end (`end − eps`, e.g. frame 99 for
`[0,100)` with `eps = 1`); with direction Reverse it is `end − f`, which is
clamped above but NOT below: it lies at or below the start of the usable
range and can extrapolate past it. -/
theorem claim_C6_amended (eps rendered s e L f : ℚ) (composition : Composition)
    (ps : PlaybackSettings) (hloop : ps.looping = AnimationLoopBehavior.Loop)
    (hs : s = max ps.segments.start composition.frames.start)
    (he : e = min ps.segments.stop composition.frames.stop)
    (hL : L = e - s + ps.intermission)
    (hf : f = fmod rendered L)
    (heps : 0 < eps) (hepsle : eps ≤ e - s) (htail : e - s ≤ f) :
    calculate_playhead eps rendered composition
        { ps with direction := AnimationDirection.Normal } = e - eps ∧
    calculate_playhead eps rendered composition
        { ps with direction := AnimationDirection.Reverse } = e - f ∧
    e - f ≤ s := by
  simp only [calculate_playhead, hloop, ← hs, ← he, ← hL, ← hf]
  refine ⟨min_eq_right (by linarith), min_eq_left (by linarith), by linarith⟩

/-- Witness for the amended C6 at the spec's concrete scenario
(`[0,100)`, intermission 10, `rendered_frames = 105`, `eps = 1`): the
Normal playhead saturates at 99 (the last valid frame, not 105) and the
Reverse playhead is `100 − 105 = −5 ≤ 0`. -/
theorem claim_C6_amended_witness :
    calculate_playhead 1 105 comp100
        { psI10 with direction := AnimationDirection.Normal } = 100 - 1 ∧
    calculate_playhead 1 105 comp100
        { psI10 with direction := AnimationDirection.Reverse } = 100 - 105 ∧
    (100 : ℚ) - 105 ≤ 0 := by
  have h := claim_C6_amended 1 105 0 100 110 105 comp100 psI10 rfl
    (by with_unfolding_all decide) (by with_unfolding_all decide)
    (by with_unfolding_all decide) (by with_unfolding_all decide)
    (by norm_num) (by norm_num) (by norm_num)
  with_unfolding_all exact h

/-! ### Claim C7 -/

/-- Counterexample to claim C7: with segments `[0,50)` clamping the usable
range of `[0,100)` and intermission 0, at `rendered_frames = 50` the spec's
condition (`rendered ≥ usable_length + intermission = 50`) holds, yet the
source's `OnComplete` rule does not fire — the code compares against the
full composition range (100), ignoring segments. -/
theorem claim_C7_counterexample :
    (scanTransitions (VectorData.Lottie comp100 (some 0) 50) psSeg50 false false 0 false
        [AnimationTransition.OnComplete "done"]).1 = none ∧
    specOnCompleteCondition comp100 psSeg50 50 := by
  constructor
  · with_unfolding_all decide
  · unfold specOnCompleteCondition
    with_unfolding_all decide

/-- Claim C7 as amended: an `OnComplete` rule on a Lottie is satisfied
exactly when `rendered_frames ≥ (frames.end − frames.start) + intermission`
— the full composition frame range plus intermission; the segment-clamped
usable range is not consulted. -/
theorem claim_C7_amended (composition : Composition) (ff : Option ℚ) (rendered : ℚ)
    (ps : PlaybackSettings) (is_inside just_pressed : Bool) (now : ℚ) (hovered : Bool)
    (s : String) :
    (scanTransitions (VectorData.Lottie composition ff rendered) ps is_inside just_pressed now
        hovered [AnimationTransition.OnComplete s]).1 = some s ↔
      composition.frames.stop - composition.frames.start + ps.intermission ≤ rendered := by
  rw [scanTransitions]
  split
  · rename_i h
    simpa using h
  · rename_i h
    rw [scanTransitions]
    simpa using h

/-! ### Claim C10 -/

/-- Claim C10: `play()` sets `playing = true` and `stopped = false`, and on
a stopped player `toggle_play()` takes the `play()` branch regardless of the
prior `playing` flag, so it always resumes rather than toggling to pause. -/
theorem claim_C10_toggle_play_resumes (p : LottiePlayer) :
    p.play.playing = true ∧ p.play.stopped = false ∧
    (p.stopped = true →
      p.toggle_play = p.play ∧ p.toggle_play.playing = true ∧ p.toggle_play.stopped = false) := by
  refine ⟨rfl, rfl, fun hs => ?_⟩
  have ht : p.toggle_play = p.play := by
    simp [LottiePlayer.toggle_play, hs]
  exact ⟨ht, by rw [ht]; rfl, by rw [ht]; rfl⟩

/-- Witness for C10 at a concrete stopped player whose `playing` flag is
still true: `toggle_play` resumes (playing, not stopped) instead of
pausing. -/
theorem claim_C10_toggle_play_resumes_witness :
    ({ playerAB with stopped := true } : LottiePlayer).play.playing = true ∧
    ({ playerAB with stopped := true } : LottiePlayer).play.stopped = false ∧
    (({ playerAB with stopped := true } : LottiePlayer).stopped = true →
      ({ playerAB with stopped := true } : LottiePlayer).toggle_play =
        ({ playerAB with stopped := true } : LottiePlayer).play ∧
      ({ playerAB with stopped := true } : LottiePlayer).toggle_play.playing = true ∧
      ({ playerAB with stopped := true } : LottiePlayer).toggle_play.stopped = false) :=
  claim_C10_toggle_play_resumes { playerAB with stopped := true }

/-! ### Claim C2 -/

/-- Claim C2, evaluated at the failing input: frame range `[0,100)`, active
intermission 0, `rendered_frames = 50`, pending intermission 10.  The claim
(and spec) require the accumulator to become `50 + 10 × (50/100) = 55`
(clamped only so it does not exceed the loop boundary); the code's
`(rendered_frames + dt_frames).min(0.0)` instead produces `0`. -/
theorem claim_C2_intermission_clamp_eval :
    Option.map (fun res => getAsset res.1 0) (apply_player_inputs (assetsL 50) entityC2) =
      some (some (VectorData.Lottie comp100 (some 0) 0)) ∧
    (50 : ℚ) + (10 - 0) * (50 / (100 - 0 + 0)) = 55 ∧
    (0 : ℚ) ≠ 55 := by
  refine ⟨?_, by norm_num, by norm_num⟩
  with_unfolding_all decide

/-! ### Claim C3 -/

/-- Counterexample to claim C3: a stopped player with a pending
`next_state = "b"` request.  A full tick is not a no-op: `set_state` does
not check `stopped`, so the commit still happens and `current_state`
changes from `a` to `b`. -/
theorem claim_C3_counterexample :
    Option.map (fun res => res.2.1.player.current_state)
      (tick 1 0 0 false false (assetsL 30) entityC3 false) = some "b" ∧
    entityC3.player.current_state = "a" ∧
    entityC3.player.stopped = true := by
  refine ⟨?_, rfl, rfl⟩
  with_unfolding_all decide

/-- Claim C3 as amended: `stopped` suppresses the playhead advance
(`advance_playheads` leaves everything unchanged) and transition evaluation
(`run_transitions` leaves everything unchanged), but it does not suppress
the other two phases: in particular `set_state` still commits a pending
`next_state` request on a stopped player. -/
theorem claim_C3_amended (dt now : ℚ) (is_inside just_pressed : Bool) (assets : Assets)
    (e : Entity) (hovered : Bool) (eps : ℚ) (pbOpt : Option PlaybackSettings) (s : String)
    (target cur_st : AnimationState) (composition : Composition) (ff : Option ℚ) (r : ℚ)
    (hstop : e.player.stopped = true) :
    advance_playheads dt now assets e = some (assets, e) ∧
    run_transitions is_inside just_pressed now assets e hovered = some (e, hovered) ∧
    (e.player.next_state = some s →
      List.lookup s e.player.states = some target →
      List.lookup e.player.current_state e.player.states = some cur_st →
      getAsset assets (if cur_st.asset ≠ target.asset then target.asset else e.cur_handle) =
        some (VectorData.Lottie composition ff r) →
      Option.map (fun res => res.2.player.current_state) (set_state eps assets pbOpt e) =
        some s) := by
  refine ⟨?_, ?_, fun h1 h2 h3 h4 => ?_⟩
  · simp [advance_playheads, hstop]
  · simp [run_transitions, hstop]
  · simp only [set_state, h1, h2, h3, h4]
    rfl

/-- Witness for the amended C3 at the concrete stopped entity: the playhead
and transition phases are no-ops, and the pending commit to `b` still goes
through. -/
theorem claim_C3_amended_witness :
    advance_playheads 0 0 (assetsL 30) entityC3 = some (assetsL 30, entityC3) ∧
    run_transitions false false 0 (assetsL 30) entityC3 false = some (entityC3, false) ∧
    (entityC3.player.next_state = some "b" →
      List.lookup "b" entityC3.player.states = some stateB →
      List.lookup entityC3.player.current_state entityC3.player.states = some stateA →
      getAsset (assetsL 30)
          (if stateA.asset ≠ stateB.asset then stateB.asset else entityC3.cur_handle) =
        some (VectorData.Lottie comp100 (some 0) 30) →
      Option.map (fun res => res.2.player.current_state)
          (set_state 1 (assetsL 30) (some ps0) entityC3) = some "b") :=
  claim_C3_amended 0 0 false false (assetsL 30) entityC3 false 1 (some ps0) "b"
    stateB stateA comp100 (some 0) 30 rfl

/-! ### Claim C4 -/

/-- Counterexample to claim C4: a running player whose only transition is
`OnShow` to the unregistered id `ghost`.  The rule fires, and the commit
phase panics on the missing state (embedded as `none`): the tick pipeline
does crash instead of treating the misconfigured transition as
never-satisfied. -/
theorem claim_C4_counterexample :
    tick 1 0 0 false false (assetsL 30) entityC4 false = none ∧
    List.lookup "ghost" entityC4.player.states = none := by
  constructor <;> with_unfolding_all decide

/-- Claim C4 as amended: a pending transition to a target id that is not
registered in the state table makes `set_state` panic (fail fast, embedded
as `none`) rather than being reported and treated as never-satisfied. -/
theorem claim_C4_amended (eps : ℚ) (assets : Assets) (pbOpt : Option PlaybackSettings)
    (e : Entity) (s : String) (hnext : e.player.next_state = some s)
    (hmiss : List.lookup s e.player.states = none) :
    set_state eps assets pbOpt e = none := by
  simp only [set_state, hnext, hmiss]

/-- Witness for the amended C4: committing the fired `ghost` transition
panics. -/
theorem claim_C4_amended_witness :
    set_state 1 (assetsL 30) (some ps0)
      { entityC4 with player := { entityC4.player with next_state := some "ghost" } } = none :=
  claim_C4_amended 1 (assetsL 30) (some ps0)
    { entityC4 with player := { entityC4.player with next_state := some "ghost" } } "ghost"
    rfl (by with_unfolding_all decide)

/-! ### Claim C1 -/

/-- Counterexample to claim C1: after `apply_player_inputs` runs on a
player with `pending_speed = some 2`, the slot still holds `some 2` — it is
not cleared to `none`. -/
theorem claim_C1_counterexample :
    Option.map (fun res => res.2.player.pending_speed)
      (apply_player_inputs (assetsL 30) entityC1) = some (some 2) ∧
    (some (2 : ℚ) ≠ (none : Option ℚ)) := by
  refine ⟨?_, by simp⟩
  with_unfolding_all decide

/-- Claim C1 as amended: on a Lottie asset the apply phase writes each
present settings-valued pending slot (direction, intermission,
loop-behavior, play-mode, speed) into the active settings and into every
state's existing settings override, but no pending slot is cleared — all
six slots are exactly what they were before the phase.  (A pending seek
writes no settings; it remaps the accumulator.) -/
theorem claim_C1_amended (assets : Assets) (e : Entity) (composition : Composition)
    (ff : Option ℚ) (r : ℚ)
    (hasset : getAsset assets e.cur_handle = some (VectorData.Lottie composition ff r))
    (d : AnimationDirection) (i : ℚ) (lb : AnimationLoopBehavior) (m : AnimationPlayMode)
    (sp : ℚ) :
    Option.map (fun res => (res.2.player.pending_seek_frame, res.2.player.pending_direction,
        res.2.player.pending_intermission, res.2.player.pending_loop_behavior,
        res.2.player.pending_play_mode, res.2.player.pending_speed))
      (apply_player_inputs assets e) =
      some (e.player.pending_seek_frame, e.player.pending_direction,
        e.player.pending_intermission, e.player.pending_loop_behavior,
        e.player.pending_play_mode, e.player.pending_speed) ∧
    (e.player.pending_direction = some d →
      Option.map (fun res => (decide (res.2.ps.direction = d),
          overridesAll (fun x => decide (x.direction = d)) res.2.player.states))
        (apply_player_inputs assets e) = some (true, true)) ∧
    (e.player.pending_intermission = some i →
      Option.map (fun res => (decide (res.2.ps.intermission = i),
          overridesAll (fun x => decide (x.intermission = i)) res.2.player.states))
        (apply_player_inputs assets e) = some (true, true)) ∧
    (e.player.pending_loop_behavior = some lb →
      Option.map (fun res => (decide (res.2.ps.looping = lb),
          overridesAll (fun x => decide (x.looping = lb)) res.2.player.states))
        (apply_player_inputs assets e) = some (true, true)) ∧
    (e.player.pending_play_mode = some m →
      Option.map (fun res => (decide (res.2.ps.play_mode = m),
          overridesAll (fun x => decide (x.play_mode = m)) res.2.player.states))
        (apply_player_inputs assets e) = some (true, true)) ∧
    (e.player.pending_speed = some sp →
      Option.map (fun res => (decide (res.2.ps.speed = sp),
          overridesAll (fun x => decide (x.speed = sp)) res.2.player.states))
        (apply_player_inputs assets e) = some (true, true)) := by
  obtain ⟨r2, happly⟩ := apply_player_inputs_shape assets e composition ff r hasset
  rw [happly]
  refine ⟨rfl, fun h => ?_, fun h => ?_, fun h => ?_, fun h => ?_, fun h => ?_⟩
  · have h1 : (pendingFan e.player e.ps).direction = d := pendingFan_direction _ _ _ h
    have h2 : overridesAll (fun x => decide (x.direction = d))
        (fanoutStates (fun x => pendingFan e.player x) e.player.states) = true :=
      overridesAll_fanoutStates _ _ _ (fun x => by simp [pendingFan_direction e.player x d h])
    simp [h1, h2]
  · have h1 : (pendingFan e.player e.ps).intermission = i := pendingFan_intermission _ _ _ h
    have h2 : overridesAll (fun x => decide (x.intermission = i))
        (fanoutStates (fun x => pendingFan e.player x) e.player.states) = true :=
      overridesAll_fanoutStates _ _ _
        (fun x => by simp [pendingFan_intermission e.player x i h])
    simp [h1, h2]
  · have h1 : (pendingFan e.player e.ps).looping = lb := pendingFan_looping _ _ _ h
    have h2 : overridesAll (fun x => decide (x.looping = lb))
        (fanoutStates (fun x => pendingFan e.player x) e.player.states) = true :=
      overridesAll_fanoutStates _ _ _ (fun x => by simp [pendingFan_looping e.player x lb h])
    simp [h1, h2]
  · have h1 : (pendingFan e.player e.ps).play_mode = m := pendingFan_play_mode _ _ _ h
    have h2 : overridesAll (fun x => decide (x.play_mode = m))
        (fanoutStates (fun x => pendingFan e.player x) e.player.states) = true :=
      overridesAll_fanoutStates _ _ _ (fun x => by simp [pendingFan_play_mode e.player x m h])
    simp [h1, h2]
  · have h1 : (pendingFan e.player e.ps).speed = sp := pendingFan_speed _ _ _ h
    have h2 : overridesAll (fun x => decide (x.speed = sp))
        (fanoutStates (fun x => pendingFan e.player x) e.player.states) = true :=
      overridesAll_fanoutStates _ _ _ (fun x => by simp [pendingFan_speed e.player x sp h])
    simp [h1, h2]

/-- Witness for the amended C1 at the concrete entity with all six pending
slots set: the five settings commands are fanned out and all six slots
survive the phase. -/
theorem claim_C1_amended_witness :
    Option.map (fun res => (res.2.player.pending_seek_frame, res.2.player.pending_direction,
        res.2.player.pending_intermission, res.2.player.pending_loop_behavior,
        res.2.player.pending_play_mode, res.2.player.pending_speed))
      (apply_player_inputs (assetsL 30) entityC1) =
      some (entityC1.player.pending_seek_frame, entityC1.player.pending_direction,
        entityC1.player.pending_intermission, entityC1.player.pending_loop_behavior,
        entityC1.player.pending_play_mode, entityC1.player.pending_speed) ∧
    (entityC1.player.pending_direction = some AnimationDirection.Reverse →
      Option.map (fun res => (decide (res.2.ps.direction = AnimationDirection.Reverse),
          overridesAll (fun x => decide (x.direction = AnimationDirection.Reverse))
            res.2.player.states))
        (apply_player_inputs (assetsL 30) entityC1) = some (true, true)) ∧
    (entityC1.player.pending_intermission = some 10 →
      Option.map (fun res => (decide (res.2.ps.intermission = 10),
          overridesAll (fun x => decide (x.intermission = 10)) res.2.player.states))
        (apply_player_inputs (assetsL 30) entityC1) = some (true, true)) ∧
    (entityC1.player.pending_loop_behavior = some AnimationLoopBehavior.None →
      Option.map (fun res => (decide (res.2.ps.looping = AnimationLoopBehavior.None),
          overridesAll (fun x => decide (x.looping = AnimationLoopBehavior.None))
            res.2.player.states))
        (apply_player_inputs (assetsL 30) entityC1) = some (true, true)) ∧
    (entityC1.player.pending_play_mode = some AnimationPlayMode.PingPong →
      Option.map (fun res => (decide (res.2.ps.play_mode = AnimationPlayMode.PingPong),
          overridesAll (fun x => decide (x.play_mode = AnimationPlayMode.PingPong))
            res.2.player.states))
        (apply_player_inputs (assetsL 30) entityC1) = some (true, true)) ∧
    (entityC1.player.pending_speed = some 2 →
      Option.map (fun res => (decide (res.2.ps.speed = 2),
          overridesAll (fun x => decide (x.speed = 2)) res.2.player.states))
        (apply_player_inputs (assetsL 30) entityC1) = some (true, true)) :=
  claim_C1_amended (assetsL 30) entityC1 comp100 (some 0) 30 rfl
    AnimationDirection.Reverse 10 AnimationLoopBehavior.None AnimationPlayMode.PingPong 2

/-! ### Claim C5 -/

/-- Counterexample to claim C5: after `set_speed(2)` is applied by the
apply phase, committing a transition to state `b` — which has no settings
override — installs the fixed default settings, whose speed is 1, not 2:
the pending global change is lost for override-less states. -/
theorem claim_C5_counterexample :
    Option.map (fun res => res.2.ps.speed)
      (Option.bind (apply_player_inputs (assetsL 30) entityC5)
        (fun st => commitStep 1 (requeue "b" st))) = some 1 ∧
    entityC5.player.pending_speed = some 2 ∧
    (1 : ℚ) ≠ 2 := by
  refine ⟨?_, rfl, by norm_num⟩
  with_unfolding_all decide

/-- Claim C5 as amended: after a pending `set_speed(s)` is applied,
committing a transition to any state whose override exists yields active
speed `s`; but committing to a state with no override installs the fixed
default settings, which do not reflect the pending change. -/
theorem claim_C5_amended (eps : ℚ) (assets : Assets) (e : Entity) (composition : Composition)
    (ff : Option ℚ) (r : ℚ)
    (hasset : getAsset assets e.cur_handle = some (VectorData.Lottie composition ff r))
    (sp : ℚ) (hsp : e.player.pending_speed = some sp)
    (next : String) (target cur_st : AnimationState)
    (htgt : List.lookup next e.player.states = some target)
    (hcur : List.lookup e.player.current_state e.player.states = some cur_st)
    (hsame : cur_st.asset = target.asset) :
    (∀ o, target.playback_settings = some o →
      Option.map (fun res => res.2.ps.speed)
        (Option.bind (apply_player_inputs assets e)
          (fun st => commitStep eps (requeue next st))) = some sp) ∧
    (target.playback_settings = none →
      Option.map (fun res => res.2.ps)
        (Option.bind (apply_player_inputs assets e)
          (fun st => commitStep eps (requeue next st))) =
        some PlaybackSettings.default) := by
  obtain ⟨r2, happly⟩ := apply_player_inputs_shape assets e composition ff r hasset
  have hasset2 : getAsset (setAsset assets e.cur_handle (VectorData.Lottie composition ff r2))
      e.cur_handle = some (VectorData.Lottie composition ff r2) :=
    getAsset_setAsset_self assets e.cur_handle _ (by rw [hasset]; rfl)
  have htgt2 : List.lookup next
      (fanoutStates (fun x => pendingFan e.player x) e.player.states) =
      some { target with
        playback_settings := Option.map (fun x => pendingFan e.player x)
          target.playback_settings } := by
    rw [lookup_fanoutStates, htgt]
    rfl
  have hcur2 : List.lookup e.player.current_state
      (fanoutStates (fun x => pendingFan e.player x) e.player.states) =
      some { cur_st with
        playback_settings := Option.map (fun x => pendingFan e.player x)
          cur_st.playback_settings } := by
    rw [lookup_fanoutStates, hcur]
    rfl
  rw [happly]
  constructor
  · intro o ho
    simp only [Option.bind, commitStep, requeue, set_state, htgt2, hcur2, hsame, ho,
      Option.map, ne_eq, not_true_eq_false, if_false, hasset2]
    simp [pendingFan_speed e.player o sp hsp]
  · intro ho
    simp only [Option.bind, commitStep, requeue, set_state, htgt2, hcur2, hsame, ho,
      Option.map, ne_eq, not_true_eq_false, if_false, hasset2]
    rfl

/-- Witness for the amended C5, committing to the override-carrying state
`a` and exercising the override-less conclusion vacuously. -/
theorem claim_C5_amended_witness :
    (∀ o, stateA.playback_settings = some o →
      Option.map (fun res => res.2.ps.speed)
        (Option.bind (apply_player_inputs (assetsL 30) entityC5)
          (fun st => commitStep 1 (requeue "a" st))) = some 2) ∧
    (stateA.playback_settings = none →
      Option.map (fun res => res.2.ps)
        (Option.bind (apply_player_inputs (assetsL 30) entityC5)
          (fun st => commitStep 1 (requeue "a" st))) = some PlaybackSettings.default) :=
  claim_C5_amended 1 (assetsL 30) entityC5 comp100 (some 0) 30 rfl 2 rfl "a"
    stateA stateA rfl rfl rfl

/-! ### Claim C8 -/

/-- Counterexample to claim C8: at `rendered_frames = 0` (a valid
accumulator) in a `[0,100)` range with no reset flags, the round trip
Normal → Reverse → Normal does not restore the playhead: the original
playhead is `0`, but after the round trip the visible playhead is
`100 − eps` (here with `eps = 1`; the failure is independent of `eps`),
because the Normal → Reverse remap sends
the accumulator to the loop boundary `100`, which folds to `0` and then
saturates at `prev(end)` on the way back. -/
theorem claim_C8_counterexample :
    Option.bind (roundTrip 1 "a" (assetsRT 100 30 0) (entityRT 100 0))
        (visiblePlayhead 1) = some (100 - 1) ∧
    calculate_playhead 1 0
        { frames := { start := 0, stop := 100 }, frame_rate := 30 } (psRT 100 0) = 0 ∧
    (100 : ℚ) - 1 ≠ 0 := by
  refine ⟨?_, ?_, by norm_num⟩ <;> with_unfolding_all decide

/-- Claim C8 as amended: for a composition `[0, E)` with full-range
segments, matching intermissions, Loop behavior and no reset flags, if the
folded frame `f0 = fmod r0 (E + i)` lies strictly inside the usable range
(`0 < f0 ≤ E − eps`), then committing Normal → Reverse yields accumulator
`E − f0` (the spec's `end − playhead`, e.g. `70` for `r0 = 30` in
`[0,100)`), and immediately committing back to Normal restores the visible
playhead exactly. -/
theorem claim_C8_amended (eps E i fr r0 : ℚ)
    (hi : 0 ≤ i) (heps : 0 < eps) (hr0 : 0 ≤ r0)
    (hf0pos : 0 < fmod r0 (E + i)) (hf0le : fmod r0 (E + i) ≤ E - eps) :
    Option.bind (commitStep eps (assetsRT E fr r0, entityRT E i)) (fun st => getAsset st.1 0) =
      some (VectorData.Lottie { frames := { start := 0, stop := E }, frame_rate := fr } none
        (E - fmod r0 (E + i))) ∧
    Option.bind (roundTrip eps "a" (assetsRT E fr r0) (entityRT E i)) (visiblePlayhead eps) =
      some (calculate_playhead eps r0
        { frames := { start := 0, stop := E }, frame_rate := fr } (psRT E i)) := by
  have hf0E : fmod r0 (E + i) < E := by linarith
  have hf0nn : 0 ≤ fmod r0 (E + i) := le_of_lt hf0pos
  have h1 : calculate_playhead eps r0
      { frames := { start := 0, stop := E }, frame_rate := fr } (psRT E i) =
      fmod r0 (E + i) := by
    simp only [calculate_playhead, psRT, max_self, min_self, sub_zero, zero_add]
    rw [min_eq_left hf0le]
  have h2 : calculate_playhead eps (E - fmod r0 (E + i))
      { frames := { start := 0, stop := E }, frame_rate := fr }
      { psRT E i with direction := AnimationDirection.Reverse } = fmod r0 (E + i) := by
    simp only [calculate_playhead, psRT, max_self, min_self, sub_zero, zero_add]
    rw [fmod_eq_self (by linarith) (by linarith)]
    rw [show E - (E - fmod r0 (E + i)) = fmod r0 (E + i) by ring]
    rw [min_eq_left hf0le]
  have h3 : calculate_playhead eps (fmod r0 (E + i))
      { frames := { start := 0, stop := E }, frame_rate := fr } (psRT E i) =
      fmod r0 (E + i) := by
    simp only [calculate_playhead, psRT, max_self, min_self, sub_zero, zero_add]
    rw [fmod_eq_self hf0nn (by linarith)]
    rw [min_eq_left hf0le]
  have h1x : calculate_playhead eps r0 { frames := { start := 0, stop := E }, frame_rate := fr }
      { direction := AnimationDirection.Normal, speed := 1,
        looping := AnimationLoopBehavior.Loop, play_mode := AnimationPlayMode.Normal,
        segments := { start := 0, stop := E }, intermission := i, autoplay := true } =
      fmod r0 (E + i) := h1
  have h2x : calculate_playhead eps (E - fmod r0 (E + i))
      { frames := { start := 0, stop := E }, frame_rate := fr }
      { direction := AnimationDirection.Reverse, speed := 1,
        looping := AnimationLoopBehavior.Loop, play_mode := AnimationPlayMode.Normal,
        segments := { start := 0, stop := E }, intermission := i, autoplay := true } =
      fmod r0 (E + i) := h2
  have hc1 : commitStep eps (assetsRT E fr r0, entityRT E i) =
      some ([(0, VectorData.Lottie { frames := { start := 0, stop := E }, frame_rate := fr }
          none (E - fmod r0 (E + i)))],
        entityRTafter E i "b" none
          { psRT E i with direction := AnimationDirection.Reverse }) := by
    simp only [commitStep, entityRT, playerRT, assetsRT, set_state, stateRTA, stateRTB,
      getAsset, setAsset, List.lookup, List.map, entityRTafter, playerRTafter,
      String.reduceBEq, Option.getD, ne_eq, beq_self_eq_true]
    norm_num [psRT, h1x]
  have hc2 : commitStep eps
      ([(0, VectorData.Lottie { frames := { start := 0, stop := E }, frame_rate := fr }
          none (E - fmod r0 (E + i)))],
        entityRTafter E i "b" (some "a")
          { psRT E i with direction := AnimationDirection.Reverse }) =
      some ([(0, VectorData.Lottie { frames := { start := 0, stop := E }, frame_rate := fr }
          none (fmod r0 (E + i)))],
        entityRTafter E i "a" none (psRT E i)) := by
    simp only [commitStep, set_state, stateRTA, stateRTB, getAsset, setAsset, List.lookup,
      List.map, entityRTafter, playerRTafter,
      String.reduceBEq, Option.getD, ne_eq, beq_self_eq_true]
    norm_num [psRT, h2x]
  constructor
  · rw [hc1]
    rfl
  · rw [roundTrip, hc1]
    show Option.bind (commitStep eps (requeue "a" _)) (visiblePlayhead eps) = _
    rw [show requeue "a"
        ([(0, VectorData.Lottie { frames := { start := 0, stop := E }, frame_rate := fr }
            none (E - fmod r0 (E + i)))],
          entityRTafter E i "b" none
            { psRT E i with direction := AnimationDirection.Reverse }) =
        ([(0, VectorData.Lottie { frames := { start := 0, stop := E }, frame_rate := fr }
            none (E - fmod r0 (E + i)))],
          entityRTafter E i "b" (some "a")
            { psRT E i with direction := AnimationDirection.Reverse }) from rfl]
    rw [hc2, Option.some_bind]
    rw [show visiblePlayhead eps
        ([(0, VectorData.Lottie { frames := { start := 0, stop := E }, frame_rate := fr }
            none (fmod r0 (E + i)))],
          entityRTafter E i "a" none (psRT E i)) =
        some (calculate_playhead eps (fmod r0 (E + i))
          { frames := { start := 0, stop := E }, frame_rate := fr } (psRT E i)) from rfl]
    rw [h3, h1]

/-- Witness for the amended C8 at the spec's concrete scenario:
`[0,100)`, intermission 0, `rendered_frames = 30`, `eps = 1/4`: the
Normal → Reverse commit stores accumulator `70 = 100 − 30`, and the round
trip back to Normal restores playhead `30`. -/
theorem claim_C8_amended_witness :
    Option.bind (commitStep (1/4) (assetsRT 100 30 30, entityRT 100 0))
        (fun st => getAsset st.1 0) =
      some (VectorData.Lottie { frames := { start := 0, stop := 100 }, frame_rate := 30 }
        none 70) ∧
    Option.bind (roundTrip (1/4) "a" (assetsRT 100 30 30) (entityRT 100 0))
        (visiblePlayhead (1/4)) =
      some (calculate_playhead (1/4) 30
        { frames := { start := 0, stop := 100 }, frame_rate := 30 } (psRT 100 0)) := by
  have h := claim_C8_amended (1/4) 100 0 30 30 (by norm_num) (by norm_num) (by norm_num)
    (by with_unfolding_all decide) (by with_unfolding_all decide)
  with_unfolding_all exact h

end Vello
